import Mathlib

/-!
Verification development for the WeatherAPI repository
(`weatherapi/weather`): a shallow embedding, in Lean 4, of the
forecast-resolution core — the provider client's retry loop
(`OpenWeatherMapService._make_request`), the error-classification
decorators (`handle_external_api_error`, `validate_city_exists`),
the cache-key scheme (`_get_cache_key`), the forecast shaping
(`OpenWeatherMapService.get_forecast`), the override store
(`CustomForecast` model with its `clean`/`save` logic) and the
resolver (`WeatherService.get_forecast` /
`WeatherService.create_custom_forecast`).

Modelling conventions:
* Python strings are embedded as `List PyChar`, where `PyChar`
  separates cased ASCII letters (identity = the lower-case code point,
  plus an upper-case flag) from spaces and all other characters.
  `str.lower` / `str.strip` / `str.title` are translated against this
  model.  Non-ASCII characters (the Russian message texts) are carried
  as uncased `other` code points; none of the verified properties
  depend on their casing.
* Exceptions become an inductive `PyExc` and fallible code returns
  `Except PyExc α`.  `requests`-level failures of one HTTP attempt are
  an explicit `ReqOutcome` oracle indexed by the attempt number.
* Temperatures are exact rationals (`ℚ`); Python's `round(x, 1)` is
  embedded as round-half-to-even at one decimal.
* Calendar dates are represented by their day number
  (`datetime.date` values are in bijection with day counts since the
  epoch); `datetime.fromtimestamp(dt, tz=utc).date()` becomes
  `Int.fdiv dt 86400`.
* `time.sleep` calls are recorded in an explicit trace of requested
  delays; cache reads/writes and provider calls are counted in an
  `Effects` record.
-/

/-! ## Python string model -/

/-- A character of a Python string: a cased ASCII letter (identified by
its lower-case code point together with an upper-case flag), a space,
or any other (uncased) character. -/
inductive PyChar : Type
  | letter (l : Nat) (up : Bool)
  | space
  | other (c : Nat)
  deriving DecidableEq, Repr

/-- A Python string. -/
abbrev PStr := List PyChar

/-- Inject a Lean string literal into the model (ASCII letters become
cased `letter`s, the blank becomes `space`, everything else `other`). -/
def pyStr (s : String) : PStr :=
  s.data.map fun c =>
    if c.isAlpha then PyChar.letter c.toLower.toNat c.isUpper
    else if c = ' ' then PyChar.space
    else PyChar.other c.toNat

/-- `str.lower` on one character. -/
def lowerChar : PyChar → PyChar
  | .letter l _ => .letter l false
  | .space => .space
  | .other c => .other c

/-- `str.lower`. -/
def pyLower (s : PStr) : PStr := s.map lowerChar

/-- Whitespace test used by `str.strip` (the model's strings only
contain the blank as whitespace). -/
def isSpaceChar : PyChar → Bool
  | .space => true
  | _ => false

/-- `str.strip`: drop leading and trailing whitespace. -/
def pyStrip (s : PStr) : PStr :=
  ((s.dropWhile isSpaceChar).reverse.dropWhile isSpaceChar).reverse

/-- Worker for `str.title`: `prev` records whether the previous
character was cased.  A cased character is upper-cased when it follows
an uncased position and lower-cased otherwise. -/
def titleGo : Bool → PStr → PStr
  | _, [] => []
  | prev, .letter l _ :: rest => .letter l (!prev) :: titleGo true rest
  | _, .space :: rest => .space :: titleGo false rest
  | _, .other c :: rest => .other c :: titleGo false rest

/-- `str.title`. -/
def pyTitle (s : PStr) : PStr := titleGo false s

/-- `city.strip().title()` — the normalization applied on every write
path (`CustomForecast.save`, `WeatherService.create_custom_forecast`,
`CityValidator.validate_city_name`). -/
def cityNorm (s : PStr) : PStr := pyTitle (pyStrip s)

/-- `needle in haystack` for Python strings (substring containment). -/
def containsSub (needle hay : PStr) : Bool :=
  match hay with
  | [] => needle.isEmpty
  | _ :: rest => needle.isPrefixOf hay || containsSub needle rest

/-! ## Exceptions (`weather/exceptions.py`) -/

/-- The exception values the embedded code can raise.
`cityNotFound` is `CityNotFoundException`, `externalAPI` is
`ExternalAPIException`, `validationErr` is the Django/DRF validation
error family, and `pyError` stands for any other Python exception
(`KeyError`, `ValueError`, ...); each carries its `str(e)` message. -/
inductive PyExc : Type
  | cityNotFound (msg : PStr)
  | externalAPI (msg : PStr)
  | validationErr (msg : PStr)
  | pyError (msg : PStr)
  deriving DecidableEq, Repr

/-- `str(e)`: the message of an exception. -/
def strOf : PyExc → PStr
  | .cityNotFound m => m
  | .externalAPI m => m
  | .validationErr m => m
  | .pyError m => m

/-- Class test used by `except CityNotFoundException`. -/
def isCityNotFound : PyExc → Bool
  | .cityNotFound _ => true
  | _ => false

/-- Decorator `handle_external_api_error` (exceptions.py:104-118):
re-raises `CityNotFoundException` unchanged and wraps every other
exception as `ExternalAPIException` with the original message appended
to the fixed prefix. -/
def handle_external_api_error {α : Type} (r : Except PyExc α) : Except PyExc α :=
  match r with
  | .ok v => .ok v
  | .error e =>
    if isCityNotFound e then .error e
    else .error (.externalAPI (pyStr "Не удалось получить данные о погоде: " ++ strOf e))

/-- Decorator `validate_city_exists` (exceptions.py:121-136): an
exception whose message contains `"not found"` (case-insensitively) or
`"404"` is re-raised as a fresh `CityNotFoundException` with a fixed
message; every other exception is re-raised unchanged. -/
def validate_city_exists {α : Type} (r : Except PyExc α) : Except PyExc α :=
  match r with
  | .ok v => .ok v
  | .error e =>
    if containsSub (pyStr "not found") (pyLower (strOf e)) || containsSub (pyStr "404") (strOf e)
    then .error (.cityNotFound (pyStr "Указанный город не найден. Проверьте правильность написания"))
    else .error e

/-! ## ProviderClient retry loop (`external_api.py:41-96`) -/

/-- Outcome of one call to `requests.get`, indexed by the attempt
number: an HTTP response with a status code and parsed body, a
timeout, a connection error, or some other unexpected exception. -/
inductive ReqOutcome (α : Type) : Type
  | status (code : Nat) (body : α)
  | timeout
  | connError
  | unexpected (msg : PStr)

/-- What the `try`-body of one loop iteration of `_make_request` can
raise: `requests` exceptions (`Timeout`, `ConnectionError`,
`HTTPError` from `raise_for_status`) or an application-level
exception (the explicit `CityNotFoundException` / `ExternalAPIException`
raises for 404/401/429, and any unexpected exception). -/
inductive Raised : Type
  | timeout
  | connError
  | httpError (code : Nat)
  | appExc (e : PyExc)
  | otherExc (msg : PStr)

/-- `str(e)` of a raised value, as interpolated into f-strings.  For
`HTTPError` only the control flow on the status code matters to the
program, so its text is abstracted by the printed code. -/
def strRaised : Raised → PStr
  | .timeout => pyStr "timeout"
  | .connError => pyStr "connection error"
  | .httpError c => pyStr (toString c)
  | .appExc e => strOf e
  | .otherExc m => m

/-- The `try`-body of one iteration of `_make_request`: the explicit
status checks (404 → raise `CityNotFoundException`, 401/429 → raise
`ExternalAPIException`), then `response.raise_for_status()` (raises
`HTTPError` on any 4xx/5xx), then `response.json()` is returned. -/
def try_body {α : Type} (o : ReqOutcome α) : Except Raised α :=
  match o with
  | .status c d =>
    if c = 404 then .error (.appExc (.cityNotFound (pyStr "Город не найден в OpenWeatherMap")))
    else if c = 401 then .error (.appExc (.externalAPI (pyStr "Неверный API ключ OpenWeatherMap")))
    else if c = 429 then .error (.appExc (.externalAPI (pyStr "Превышен лимит запросов к OpenWeatherMap")))
    else if 400 ≤ c then .error (.httpError c)
    else .ok d
  | .timeout => .error .timeout
  | .connError => .error .connError
  | .unexpected m => .error (.otherExc m)

/-- Result of running the `except` chain of one iteration: either the
handler re-raises (ending the loop with that exception) or it falls
through to the sleep-and-retry tail of the loop body. -/
inductive HandlerRes : Type
  | raiseNow (e : PyExc)
  | fallthrough

/-- The `except` chain of `_make_request`.  `isLast` is
`attempt == self.max_retries - 1`.  `except requests.exceptions.Timeout`
and `ConnectionError` re-raise only on the last attempt;
`except HTTPError` re-raises on the last attempt for 5xx and
immediately for other codes; the final bare `except Exception`
(which also catches the explicitly raised `CityNotFoundException` /
`ExternalAPIException` of the 404/401/429 branches) re-raises only on
the last attempt. -/
def except_chain (r : Raised) (isLast : Bool) : HandlerRes :=
  match r with
  | .timeout =>
    if isLast then .raiseNow (.externalAPI (pyStr "Таймаут при обращении к сервису погоды"))
    else .fallthrough
  | .connError =>
    if isLast then .raiseNow (.externalAPI (pyStr "Ошибка соединения с сервисом погоды"))
    else .fallthrough
  | .httpError c =>
    if 500 ≤ c then
      if isLast then .raiseNow (.externalAPI (pyStr "Сервис погоды временно недоступен"))
      else .fallthrough
    else .raiseNow (.externalAPI (pyStr "Ошибка API: " ++ strRaised (.httpError c)))
  | .appExc e =>
    if isLast then .raiseNow (.externalAPI (pyStr "Неожиданная ошибка: " ++ strOf e))
    else .fallthrough
  | .otherExc m =>
    if isLast then .raiseNow (.externalAPI (pyStr "Неожиданная ошибка: " ++ m))
    else .fallthrough

/-- The loop `for attempt in range(self.max_retries)` of
`_make_request`, returning the result together with the number of
attempts performed and the list of `time.sleep` delays requested.
`outcomes i` is the outcome of the HTTP request of attempt `i`;
`fuel` counts the remaining iterations (`make_request` starts it at
`maxR`, so `attempt` ranges over `0, ..., maxR - 1`). -/
def make_request_go {α : Type} (outcomes : Nat → ReqOutcome α) (maxR delay : Nat) :
    Nat → Nat → Except PyExc α × Nat × List Nat
  | _, 0 =>
    (.error (.externalAPI (pyStr "Не удалось получить данные после всех попыток")), 0, [])
  | attempt, fuel + 1 =>
    let isLast := attempt = maxR - 1
    match try_body (outcomes attempt) with
    | .ok d => (.ok d, 1, [])
    | .error r =>
      match except_chain r isLast with
      | .raiseNow e => (.error e, 1, [])
      | .fallthrough =>
        let s := if attempt < maxR - 1 then [delay * (attempt + 1)] else []
        let (res, n, rest) := make_request_go outcomes maxR delay (attempt + 1) fuel
        (res, n + 1, s ++ rest)

/-- `OpenWeatherMapService._make_request`: runs the retry loop with
attempt numbers `0, ..., maxR - 1`.  Returns the outcome, the number
of attempts made, and the trace of backoff sleeps. -/
def make_request {α : Type} (outcomes : Nat → ReqOutcome α) (maxR delay : Nat) :
    Except PyExc α × Nat × List Nat :=
  make_request_go outcomes maxR delay 0 maxR

/-- `OPENWEATHER_MAX_RETRIES` (constants.py). -/
def OPENWEATHER_MAX_RETRIES : Nat := 3

/-- `OPENWEATHER_RETRY_DELAY` (constants.py). -/
def OPENWEATHER_RETRY_DELAY : Nat := 1

/-- An attempt outcome on which the retry policy is supposed to retry:
timeout, connection error, or a 5xx response. -/
def retryableOutcome {α : Type} : ReqOutcome α → Bool
  | .timeout => true
  | .connError => true
  | .status c _ => 500 ≤ c
  | .unexpected _ => false

/-! ## Cache layer and cache keys (`external_api.py:98-102`, Django cache) -/

/-- A value stored in the Django cache or returned to the caller:
the shaped current-weather payload or the shaped forecast payload. -/
inductive WValue : Type
  | current (temperature : ℚ) (localTime : PStr)
  | forecast (minTemperature maxTemperature : ℚ)
  deriving DecidableEq, Repr

/-- The TTL cache, as an association list keyed by the cache-key
string.  Only entries set by the service appear here, and those are
always non-empty dicts, hence truthy: a successful lookup is a hit
for `if cached_data:`.  Expiry is not modelled (the verified
properties concern immediately successive calls). -/
abbrev Cache := List (PStr × WValue × Nat)

/-- `cache.get(key)`. -/
def cache_get (c : Cache) (key : PStr) : Option WValue :=
  (c.find? fun e => e.1 = key).map fun e => e.2.1

/-- `cache.set(key, value, ttl)` (replace-or-insert). -/
def cache_set (c : Cache) (key : PStr) (v : WValue) (ttl : Nat) : Cache :=
  (key, v, ttl) :: c.filter fun e => ¬ e.1 = key

/-- The two endpoint kinds whose lookups go through the cache. -/
inductive EndpointKind : Type
  | current
  | forecast
  deriving DecidableEq, Repr

/-- The literal endpoint name interpolated into the key. -/
def endpointName : EndpointKind → PStr
  | .current => pyStr "current"
  | .forecast => pyStr "forecast"

/-- `OpenWeatherMapService._get_cache_key`: builds
`f"weather_{endpoint}_{city.lower()}_{date}"` when a (truthy) date is
given and `f"weather_{endpoint}_{city.lower()}"` otherwise. -/
def get_cache_key (endpoint : EndpointKind) (city : PStr) (date : Option PStr) : PStr :=
  match date with
  | some d =>
    if d.isEmpty
    then pyStr "weather_" ++ endpointName endpoint ++ pyStr "_" ++ pyLower city
    else pyStr "weather_" ++ endpointName endpoint ++ pyStr "_" ++ pyLower city ++ pyStr "_" ++ d
  | none => pyStr "weather_" ++ endpointName endpoint ++ pyStr "_" ++ pyLower city

/-- `CACHE_TIMEOUT_FORECAST` (constants.py). -/
def CACHE_TIMEOUT_FORECAST : Nat := 3600

/-- `CACHE_TIMEOUT_CURRENT_WEATHER` (constants.py). -/
def CACHE_TIMEOUT_CURRENT_WEATHER : Nat := 300

/-! ## Rounding and forecast shaping (`external_api.py:142-185`) -/

/-- Round a rational to the nearest integer, ties to even
(the rounding of Python's `round` on exact values). -/
def roundHalfEven (q : ℚ) : ℤ :=
  let f : ℤ := ⌊q⌋
  let r : ℚ := q - f
  if r < 1/2 then f
  else if 1/2 < r then f + 1
  else if f % 2 = 0 then f else f + 1

/-- Python's `round(x, 1)` on an exact rational. -/
def pyRound1 (q : ℚ) : ℚ := (roundHalfEven (q * 10) : ℚ) / 10

/-- One entry of the provider's `data["list"]` forecast series:
a unix timestamp `dt` (seconds) and `main.temp`. -/
structure FPoint : Type where
  dt : ℤ
  temp : ℚ
  deriving DecidableEq, Repr

/-- The UTC calendar day (as a day number since the epoch) of a unix
timestamp: `datetime.fromtimestamp(dt, tz=timezone.utc).date()`. -/
def utcDay (dt : ℤ) : ℤ := Int.fdiv dt 86400

/-- Effect counters of one resolver call. -/
structure Effects : Type where
  providerCalls : Nat
  cacheGets : Nat
  cacheSets : Nat
  deriving DecidableEq, Repr

/-- The error message raised when no forecast point matches the
requested date
(`f"Прогноз для даты {target_date} недоступен. Доступны прогнозы только на ближайшие 5 дней."`). -/
def forecastUnavailableMsg (dateStr : PStr) : PStr :=
  pyStr "Прогноз для даты " ++ dateStr ++
    pyStr " недоступен. Доступны прогнозы только на ближайшие 5 дней."

/-- The body of `OpenWeatherMapService.get_forecast` (before its
decorators): cache lookup, `_make_request` (abstracted by its result
`fetch`), filtering of the series to the points whose UTC calendar day
equals the requested day, reduction to `round(min(...), 1)` /
`round(max(...), 1)`, and cache population on success.  The loop
`for item in data["list"]: if ...: daily_temps.append(...)` is the
filter-then-project of the series.  Returns the outcome, the new cache,
and the effect counters. -/
def owm_get_forecast_body (cache : Cache) (fetch : Except PyExc (List FPoint))
    (city dateStr : PStr) (targetDay : ℤ) : Except PyExc WValue × Cache × Effects :=
  let key := get_cache_key .forecast city (some dateStr)
  match cache_get cache key with
  | some v => (.ok v, cache, ⟨0, 1, 0⟩)
  | none =>
    match fetch with
    | .error e => (.error e, cache, ⟨1, 1, 0⟩)
    | .ok pts =>
      let daily_temps := (pts.filter fun p => utcDay p.dt = targetDay).map FPoint.temp
      match daily_temps with
      | [] => (.error (.externalAPI (forecastUnavailableMsg dateStr)), cache, ⟨1, 1, 0⟩)
      | t :: ts =>
        let min_temp := pyRound1 (ts.foldl min t)
        let max_temp := pyRound1 (ts.foldl max t)
        let result := WValue.forecast min_temp max_temp
        (.ok result, cache_set cache key result CACHE_TIMEOUT_FORECAST, ⟨1, 1, 1⟩)

/-- `OpenWeatherMapService.get_forecast` with its decorators applied:
`@handle_external_api_error` outside `@validate_city_exists` outside
the body. -/
def owm_get_forecast (cache : Cache) (fetch : Except PyExc (List FPoint))
    (city dateStr : PStr) (targetDay : ℤ) : Except PyExc WValue × Cache × Effects :=
  let (r, c, eff) := owm_get_forecast_body cache fetch city dateStr targetDay
  (handle_external_api_error (validate_city_exists r), c, eff)

/-! ## Override store (`models.py`, `weather_service.py`) -/

/-- A `CustomForecast` row.  `pk` is `None` before the first save and
the assigned primary key afterwards; `date` is the day number of the
stored `DateField`. -/
structure OverrideRec : Type where
  pk : Option Nat
  city : PStr
  date : ℤ
  minT : ℚ
  maxT : ℚ
  deriving DecidableEq, Repr

/-- The override store: the `CustomForecast` table plus the next
primary key the database will assign. -/
structure OvStore : Type where
  recs : List OverrideRec
  nextPk : Nat
  deriving DecidableEq, Repr

/-- `CustomForecast.clean` (models.py:61-84): raises when **both**
temperatures are truthy (non-zero!) and `min > max`, and raises when
the city is truthy and another row (the record itself excluded when it
already has a pk) holds the same date and a case-insensitively equal
city. -/
def model_clean (recs : List OverrideRec) (r : OverrideRec) : Except PyExc Unit :=
  if (r.minT ≠ 0 ∧ r.maxT ≠ 0) ∧ r.maxT < r.minT then
    .error (.validationErr (pyStr "Минимальная температура не может быть больше максимальной"))
  else if ¬ r.city.isEmpty ∧ (recs.any fun s =>
      decide (s.date = r.date ∧ pyLower s.city = pyLower r.city ∧
        (r.pk = none ∨ s.pk ≠ r.pk))) then
    .error (.validationErr (pyStr "Прогноз для этого города и даты уже существует (без учета регистра)"))
  else
    .ok ()

/-- `CustomForecast.save` (models.py): normalizes a truthy city with
`strip().title()`, runs `clean()`, then persists (`super().save()`):
an update in place when the record has a pk, an insert with a fresh pk
otherwise.  Field validators do NOT run here — Django's `save` never
runs them. -/
def normCity (r : OverrideRec) : OverrideRec :=
  if r.city.isEmpty then r else { r with city := cityNorm r.city }

/-- `CustomForecast.save` continued: the normalization step is
`normCity` above (`if self.city: self.city = self.city.strip().title()`). -/
def model_save (st : OvStore) (r0 : OverrideRec) : Except PyExc (OvStore × OverrideRec) :=
  let r := normCity r0
  match model_clean st.recs r with
  | .error e => .error e
  | .ok _ =>
    match r.pk with
    | some p => .ok ({ st with recs := st.recs.map fun s => if s.pk = some p then r else s }, r)
    | none =>
      let r1 := { r with pk := some st.nextPk }
      .ok (⟨st.recs ++ [r1], st.nextPk + 1⟩, r1)

/-- The field validators of `full_clean` (`clean_fields`):
`MinValueValidator(-100.0)` / `MaxValueValidator(100.0)` on both
temperatures, and the `DecimalField(max_digits=5, decimal_places=1)`
shape (at most one decimal place, i.e. the reduced denominator divides
10; the digit bound is implied by the range). -/
def model_clean_fields (r : OverrideRec) : Except PyExc Unit :=
  if r.minT < -100 ∨ 100 < r.minT ∨ r.maxT < -100 ∨ 100 < r.maxT
      ∨ 10 % r.minT.den ≠ 0 ∨ 10 % r.maxT.den ≠ 0 then
    .error (.validationErr (pyStr "Ошибка валидации параметров"))
  else
    .ok ()

/-- `validate_unique` of `full_clean`: the `unique_together
["city", "date"]` check — an exact-match duplicate (excluding the
record itself) raises. -/
def model_validate_unique (recs : List OverrideRec) (r : OverrideRec) : Except PyExc Unit :=
  if (recs.any fun s =>
      decide (s.city = r.city ∧ s.date = r.date ∧
        (r.pk = none ∨ s.pk ≠ r.pk))) = true then
    .error (.validationErr (pyStr "Прогноз для этого города и даты уже существует"))
  else
    .ok ()

/-- `Model.full_clean()`: `clean_fields`, then `clean`, then
`validate_unique`. -/
def model_full_clean (recs : List OverrideRec) (r : OverrideRec) : Except PyExc Unit :=
  match model_clean_fields r with
  | .error e => .error e
  | .ok _ =>
    match model_clean recs r with
    | .error e => .error e
    | .ok _ => model_validate_unique recs r

/-- The exact-match `(city, date)` lookup of `update_or_create`. -/
def exactKey (city : PStr) (day : ℤ) (s : OverrideRec) : Bool :=
  decide (s.city = city ∧ s.date = day)

/-- The case-insensitive `(city, date)` lookup of
`CustomForecast.objects.get(city__iexact=city, date=date_obj)`. -/
def iexactKey (city : PStr) (day : ℤ) (r : OverrideRec) : Bool :=
  decide (pyLower r.city = pyLower city ∧ r.date = day)

/-- `WeatherService.create_custom_forecast` (weather_service.py:50-74):
normalizes the city, then `update_or_create` keyed on the **exact**
(city, date) pair — which fetches-or-constructs the row, assigns the
temperatures and saves it (persisting it!) — then `full_clean()`, then
`save()` again.  Returns
`{"min_temperature": float(...), "max_temperature": float(...)}`
together with the resulting store. -/
def create_custom_forecast (st : OvStore) (city : PStr) (day : ℤ) (minTemp maxTemp : ℚ) :
    Except PyExc (ℚ × ℚ) × OvStore :=
  let city := if city.isEmpty then city else cityNorm city
  let r0 : OverrideRec :=
    match st.recs.find? (exactKey city day) with
    | some s => { s with minT := minTemp, maxT := maxTemp }
    | none => ⟨none, city, day, minTemp, maxTemp⟩
  match model_save st r0 with
  | .error e => (.error e, st)
  | .ok (st1, r1) =>
    match model_full_clean st1.recs r1 with
    | .error e => (.error e, st1)
    | .ok _ =>
      match model_save st1 r1 with
      | .error e => (.error e, st1)
      | .ok (st2, r2) => (.ok (r2.minT, r2.maxT), st2)

/-- `WeatherService.get_forecast` (weather_service.py:25-48): queries
the override store with `city__iexact=city, date=date_obj`; on a hit
it returns the stored temperatures directly (no cache access, no
provider call); only on `DoesNotExist` does it delegate to
`OpenWeatherMapService.get_forecast`.  (`fetch` abstracts the
`_make_request` outcome of that delegated call; the date string is
received pre-parsed as its day number, as the HTTP layer always hands
over a well-formed `YYYY-MM-DD` string.) -/
def ws_get_forecast (store : OvStore) (cache : Cache) (fetch : Except PyExc (List FPoint))
    (city dateStr : PStr) (targetDay : ℤ) : Except PyExc WValue × Cache × Effects :=
  match store.recs.find? (iexactKey city targetDay) with
  | some r => (.ok (.forecast r.minT r.maxT), cache, ⟨0, 0, 0⟩)
  | none => owm_get_forecast cache fetch city dateStr targetDay

/-- Store well-formedness: every row has a pk below `nextPk` and pks
are pairwise distinct.  The empty store is well-formed and
`model_save` preserves this. -/
def wfStore (st : OvStore) : Prop :=
  (∀ r ∈ st.recs, ∃ p, r.pk = some p ∧ p < st.nextPk) ∧
    st.recs.Pairwise fun a b => a.pk ≠ b.pk

/-! ## Theorems -/

theorem pyStr_weather_length : (pyStr "weather_").length = 8 := rfl

theorem weather_prefix_getElem8 (x : PStr) : (pyStr "weather_" ++ x)[8]? = x[0]? := by
  rw [List.getElem?_append_right pyStr_weather_length.le]
  rw [pyStr_weather_length]

theorem endpointName_head (e : EndpointKind) (y : PStr) :
    (endpointName e ++ y)[0]? = (endpointName e)[0]? := by
  cases e
  · exact List.getElem?_append_left (by decide)
  · exact List.getElem?_append_left (by decide)

theorem get_cache_key_getElem8 (e : EndpointKind) (city : PStr) (d : Option PStr) :
    (get_cache_key e city d)[8]? = (endpointName e)[0]? := by
  have h : ∀ x : PStr, (pyStr "weather_" ++ (endpointName e ++ x))[8]? = (endpointName e)[0]? := by
    intro x
    rw [weather_prefix_getElem8]
    exact endpointName_head e x
  cases d with
  | none => simpa [get_cache_key] using h (pyStr "_" ++ pyLower city)
  | some dd =>
    by_cases hdd : dd.isEmpty = true
    · simpa [get_cache_key, hdd] using h (pyStr "_" ++ pyLower city)
    · simpa [get_cache_key, hdd] using h (pyStr "_" ++ pyLower city ++ pyStr "_" ++ dd)

/-- C9: for every city and forecast date the cache key built by
`_get_cache_key` equals the scheme
`weather_{current|forecast}_{lowercased city}[_{date}]` (the date part
present exactly for forecast keys), and keys of the two endpoint kinds
are always distinct, so cache entries never collide across endpoint
kinds. -/
theorem C9_cache_key_scheme :
    (∀ city : PStr, get_cache_key .current city none = pyStr "weather_current_" ++ pyLower city) ∧
    (∀ city d : PStr, ¬ d.isEmpty →
      get_cache_key .forecast city (some d) =
        pyStr "weather_forecast_" ++ pyLower city ++ pyStr "_" ++ d) ∧
    (∀ (c1 c2 : PStr) (d1 d2 : Option PStr),
      get_cache_key .current c1 d1 ≠ get_cache_key .forecast c2 d2) := by
  refine ⟨?_, ?_, ?_⟩
  · intro city
    show pyStr "weather_" ++ (endpointName .current ++ (pyStr "_" ++ pyLower city)) = _
    rw [show pyStr "weather_current_" =
      pyStr "weather_" ++ (endpointName .current ++ pyStr "_") from rfl]
    simp [List.append_assoc]
  · intro city d hd
    show (if d.isEmpty = true then _ else _) = _
    rw [if_neg hd]
    rw [show pyStr "weather_forecast_" =
      pyStr "weather_" ++ (endpointName .forecast ++ pyStr "_") from rfl]
    simp [List.append_assoc]
  · intro c1 c2 d1 d2 h
    have h8 := congrArg (fun l => l[8]?) h
    simp only [get_cache_key_getElem8] at h8
    exact absurd h8 (by decide)

/-- C7: the error-handling stage `handle_external_api_error` lets a
`CityNotFoundException` propagate unwrapped and unmodified, re-raises
every other exception wrapped as an `ExternalAPIException` whose message
carries the original cause's message, and swallows nothing (a successful
result passes through unchanged). -/
theorem C7_error_wrapping {α : Type} (r : Except PyExc α) :
    (∀ v : α, r = .ok v → handle_external_api_error r = .ok v) ∧
    (∀ m : PStr, r = .error (.cityNotFound m) →
      handle_external_api_error r = .error (.cityNotFound m)) ∧
    (∀ e : PyExc, r = .error e → isCityNotFound e = false →
      handle_external_api_error r =
        .error (.externalAPI (pyStr "Не удалось получить данные о погоде: " ++ strOf e))) := by
  refine ⟨?_, ?_, ?_⟩
  · rintro v rfl
    rfl
  · rintro m rfl
    rfl
  · rintro e rfl he
    simp [handle_external_api_error, he]

theorem C7_error_wrapping_witness :
    handle_external_api_error (Except.error (PyExc.cityNotFound (pyStr "x")) : Except PyExc Unit) =
      .error (.cityNotFound (pyStr "x")) ∧
    handle_external_api_error (Except.error (PyExc.pyError (pyStr "boom")) : Except PyExc Unit) =
      .error (.externalAPI (pyStr "Не удалось получить данные о погоде: " ++ pyStr "boom")) ∧
    handle_external_api_error (Except.ok () : Except PyExc Unit) = .ok () := by
  refine ⟨?_, ?_, ?_⟩
  · exact (C7_error_wrapping _).2.1 _ rfl
  · exact (C7_error_wrapping _).2.2 (.pyError (pyStr "boom")) rfl rfl
  · exact (C7_error_wrapping _).1 () rfl

/-- C10: the city-existence decorator `validate_city_exists` re-raises a
caught exception as a (fresh) `CityNotFoundException` exactly when the
lowercased message contains `"not found"` or the message contains
`"404"`, and otherwise re-raises the original exception unchanged — the
decision reads only the exception's message text (`str(e)`), never its
type. -/
theorem C10_message_based_reclassification {α : Type} (e : PyExc) :
    validate_city_exists (Except.error e : Except PyExc α) =
      (if containsSub (pyStr "not found") (pyLower (strOf e)) ||
          containsSub (pyStr "404") (strOf e)
       then .error (.cityNotFound
         (pyStr "Указанный город не найден. Проверьте правильность написания"))
       else .error e) := by
  rfl

/-- Decidable equality for `Except` results, used to evaluate the
embedding at concrete inputs. -/
instance {e a : Type} [DecidableEq e] [DecidableEq a] : DecidableEq (Except e a) := fun x y =>
  match x, y with
  | .ok u, .ok v =>
    if h : u = v then isTrue (by rw [h]) else isFalse (fun hh => h (Except.ok.inj hh))
  | .error u, .error v =>
    if h : u = v then isTrue (by rw [h]) else isFalse (fun hh => h (Except.error.inj hh))
  | .ok _, .error _ => isFalse (fun hh => Except.noConfusion hh)
  | .error _, .ok _ => isFalse (fun hh => Except.noConfusion hh)

/-- C1: evaluation of the retry routine at the failing input — every
attempt answers HTTP 404.  The claim (and the repo's own test
`test_get_current_weather_city_not_found`) expects an immediate
`CityNotFound` failure with one attempt and no sleep; the code instead
catches its own `CityNotFoundException` in the final bare
`except Exception` handler, performs all 3 attempts, sleeps the
backoff delays 1 and 2, and surfaces an `ExternalAPIException`, which
the decorators (whose substring tests see only the Russian message)
keep as `ExternalAPIException`. -/
theorem C1_status404_eval :
    make_request (fun _ => ReqOutcome.status 404 ()) OPENWEATHER_MAX_RETRIES
        OPENWEATHER_RETRY_DELAY =
      (.error (.externalAPI
          (pyStr "Неожиданная ошибка: " ++ pyStr "Город не найден в OpenWeatherMap")),
        3, [1, 2]) ∧
    handle_external_api_error (validate_city_exists
        (make_request (fun _ => ReqOutcome.status 404 ()) OPENWEATHER_MAX_RETRIES
          OPENWEATHER_RETRY_DELAY).1) =
      .error (.externalAPI (pyStr "Не удалось получить данные о погоде: " ++
        (pyStr "Неожиданная ошибка: " ++ pyStr "Город не найден в OpenWeatherMap"))) := by
  constructor
  · rfl
  · rfl

/-- C3: evaluation of `WeatherService.create_custom_forecast` at the
failing inputs.  First conjunct: with `min_temperature = 0.0` and
`max_temperature = -5.0` the call succeeds and stores a record with
`min > max` — `CustomForecast.clean` guards its comparison with
`if self.min_temperature and self.max_temperature`, which is false for
the truthiness-false value `0.0`, so the `min ≤ max` invariant is never
checked on this path.  Second conjunct: with `min_temperature = -200`
the range validator does raise (only in `full_clean`, after
`update_or_create` has already saved), so the out-of-range record is
persisted in the store even though the call reports a validation
error. -/
theorem C3_invariant_violation_eval :
    (create_custom_forecast ⟨[], 0⟩ (pyStr "Moscow") 20000 0 (-5) =
      (.ok (0, -5), ⟨[⟨some 0, pyStr "Moscow", 20000, 0, -5⟩], 1⟩) ∧
      ¬ ((0 : ℚ) ≤ -5)) ∧
    ((create_custom_forecast ⟨[], 0⟩ (pyStr "Moscow") 20000 (-200) 5).2 =
        ⟨[⟨some 0, pyStr "Moscow", 20000, -200, 5⟩], 1⟩ ∧
      ∀ v, (create_custom_forecast ⟨[], 0⟩ (pyStr "Moscow") 20000 (-200) 5).1 ≠ .ok v) := by
  refine ⟨⟨?_, by norm_num⟩, ⟨?_, ?_⟩⟩
  · decide
  · decide
  · intro v h
    have : (create_custom_forecast ⟨[], 0⟩ (pyStr "Moscow") 20000 (-200) 5).1 =
        .error (.validationErr (pyStr "Ошибка валидации параметров")) := by decide
    rw [this] at h
    exact Except.noConfusion h

/-- C2: when an override record exists for the requested (city, date)
key — city matched case-insensitively — `WeatherService.get_forecast`
returns exactly that record's temperatures and performs no cache
lookup and no provider call, whatever the provider would do. -/
theorem C2_override_wins (store : OvStore) (cache : Cache) (fetch : Except PyExc (List FPoint))
    (city dateStr : PStr) (day : ℤ) (r : OverrideRec)
    (h : store.recs.find? (iexactKey city day) = some r) :
    ws_get_forecast store cache fetch city dateStr day =
      (.ok (.forecast r.minT r.maxT), cache, ⟨0, 0, 0⟩) := by
  unfold ws_get_forecast
  rw [h]

theorem C2_override_wins_witness :
    (create_custom_forecast ⟨[], 0⟩ (pyStr "moscow ") 20000 (-5) 10).2.recs.find?
        (iexactKey (pyStr "Moscow") 20000) =
      some (⟨some 0, pyStr "Moscow", 20000, -5, 10⟩ : OverrideRec) ∧
    ws_get_forecast (create_custom_forecast ⟨[], 0⟩ (pyStr "moscow ") 20000 (-5) 10).2 []
        (.error (.pyError (pyStr "provider down"))) (pyStr "Moscow") (pyStr "2025-10-13") 20000 =
      (.ok (.forecast (-5) 10), [], ⟨0, 0, 0⟩) :=
  ⟨by decide, C2_override_wins _ _ _ _ _ _
    (⟨some 0, pyStr "Moscow", 20000, -5, 10⟩ : OverrideRec) (by decide)⟩

theorem make_request_go_succ {α : Type} (outcomes : Nat → ReqOutcome α)
    (maxR delay attempt fuel : Nat) :
    make_request_go outcomes maxR delay attempt (fuel + 1) =
      match try_body (outcomes attempt) with
      | .ok d => (.ok d, 1, [])
      | .error r =>
        match except_chain r (decide (attempt = maxR - 1)) with
        | .raiseNow e => (.error e, 1, [])
        | .fallthrough =>
          let s := if attempt < maxR - 1 then [delay * (attempt + 1)] else []
          let t := make_request_go outcomes maxR delay (attempt + 1) fuel
          (t.1, t.2.1 + 1, s ++ t.2.2) := rfl

theorem retryable_step {α : Type} (o : ReqOutcome α) (ho : retryableOutcome o = true) :
    ∃ r, try_body o = .error r ∧ except_chain r false = .fallthrough ∧
      ∃ m, except_chain r true = .raiseNow (.externalAPI m) := by
  cases o with
  | status c b =>
    have hc : 500 ≤ c := by simpa [retryableOutcome] using ho
    refine ⟨.httpError c, ?_, ?_, ?_⟩
    · simp only [try_body]
      rw [if_neg (by omega), if_neg (by omega), if_neg (by omega), if_pos (by omega)]
    · simp [except_chain, hc]
    · exact ⟨pyStr "Сервис погоды временно недоступен", by simp [except_chain, hc]⟩
  | timeout => exact ⟨.timeout, rfl, rfl, _, rfl⟩
  | connError => exact ⟨.connError, rfl, rfl, _, rfl⟩
  | unexpected m => simp [retryableOutcome] at ho

/-- C4: when every attempt fails with a timeout, a connection error or
a 5xx response, `_make_request` performs exactly
`OPENWEATHER_MAX_RETRIES = 3` attempts, sleeps the linear backoff
`delay * 1` after attempt 1 and `delay * 2` after attempt 2 (no sleep
after the final attempt), and then fails with `ExternalAPIException`
(the `ProviderUnavailable` class). -/
theorem C4_retry_exhaustion {α : Type} (outcomes : Nat → ReqOutcome α) (delay : Nat)
    (h : ∀ i, i < OPENWEATHER_MAX_RETRIES → retryableOutcome (outcomes i) = true) :
    ∃ msg, make_request outcomes OPENWEATHER_MAX_RETRIES delay =
      (.error (.externalAPI msg), OPENWEATHER_MAX_RETRIES, [delay * 1, delay * 2]) := by
  obtain ⟨r0, e0, f0, m0, l0⟩ := retryable_step (outcomes 0) (h 0 (by decide))
  obtain ⟨r1, e1, f1, m1, l1⟩ := retryable_step (outcomes 1) (h 1 (by decide))
  obtain ⟨r2, e2, f2, m2, l2⟩ := retryable_step (outcomes 2) (h 2 (by decide))
  refine ⟨m2, ?_⟩
  have s2 : make_request_go outcomes 3 delay 2 1 =
      ((.error (.externalAPI m2) : Except PyExc α), 1, ([] : List Nat)) := by
    rw [show (1 : Nat) = 0 + 1 from rfl, make_request_go_succ, e2]
    norm_num
    rw [l2]
  have s1 : make_request_go outcomes 3 delay 1 2 =
      ((.error (.externalAPI m2) : Except PyExc α), 2, [delay * 2]) := by
    rw [show (2 : Nat) = 1 + 1 from rfl, make_request_go_succ, e1]
    norm_num
    rw [f1]
    simp [s2]
  have s0 : make_request_go outcomes 3 delay 0 3 =
      ((.error (.externalAPI m2) : Except PyExc α), 3, [delay * 1, delay * 2]) := by
    rw [show (3 : Nat) = 2 + 1 from rfl, make_request_go_succ, e0]
    norm_num
    rw [f0]
    simp [s1]
  show make_request_go outcomes 3 delay 0 3 = _
  rw [s0]
  rfl

theorem C4_retry_exhaustion_witness :
    (∀ i, i < OPENWEATHER_MAX_RETRIES →
      retryableOutcome ((fun _ => (ReqOutcome.timeout : ReqOutcome Unit)) i) = true) ∧
    ∃ msg, make_request (fun _ => (ReqOutcome.timeout : ReqOutcome Unit))
        OPENWEATHER_MAX_RETRIES 1 =
      (.error (.externalAPI msg), OPENWEATHER_MAX_RETRIES, [1 * 1, 1 * 2]) :=
  ⟨by decide, C4_retry_exhaustion _ 1 (by decide)⟩

theorem cache_get_set (c : Cache) (k : PStr) (v : WValue) (t : Nat) :
    cache_get (cache_set c k v t) k = some v := by
  simp [cache_get, cache_set]

theorem decorators_error {α : Type} (e : PyExc) :
    ∃ e2, handle_external_api_error (validate_city_exists (Except.error e : Except PyExc α)) =
      .error e2 := by
  by_cases h1 : (containsSub (pyStr "not found") (pyLower (strOf e)) ||
      containsSub (pyStr "404") (strOf e)) = true
  · refine ⟨.cityNotFound (pyStr "Указанный город не найден. Проверьте правильность написания"), ?_⟩
    simp [validate_city_exists, handle_external_api_error, h1, isCityNotFound]
  · by_cases h2 : isCityNotFound e = true
    · exact ⟨e, by simp [validate_city_exists, handle_external_api_error, h1, h2]⟩
    · exact ⟨.externalAPI (pyStr "Не удалось получить данные о погоде: " ++ strOf e),
        by simp [validate_city_exists, handle_external_api_error, h1, h2]⟩

/-- C6: on a forecast request with no override and a cache miss,
`get_forecast` filters the provider series to exactly the points whose
UTC calendar day equals the requested day and returns the minimum and
maximum of their temperatures, each rounded to one decimal place
(and caches that result); when no point matches, it fails with the
`ProviderDataUnavailable`-class error (`ExternalAPIException`) and
caches nothing.  The two substring hypotheses record that the date
string does not accidentally trip the `validate_city_exists` message
sniffing — true of every `YYYY-MM-DD` date the HTTP layer can hand
over. -/
theorem C6_forecast_min_max (store : OvStore) (cache : Cache) (pts : List FPoint)
    (city dateStr : PStr) (day : ℤ)
    (hov : store.recs.find? (iexactKey city day) = none)
    (hmiss : cache_get cache (get_cache_key .forecast city (some dateStr)) = none)
    (hnf : containsSub (pyStr "not found") (pyLower (forecastUnavailableMsg dateStr)) = false)
    (h404 : containsSub (pyStr "404") (forecastUnavailableMsg dateStr) = false) :
    (∀ mn mx,
      ((pts.filter fun p => utcDay p.dt = day).map FPoint.temp).min? = some mn →
      ((pts.filter fun p => utcDay p.dt = day).map FPoint.temp).max? = some mx →
      ws_get_forecast store cache (.ok pts) city dateStr day =
        (.ok (.forecast (pyRound1 mn) (pyRound1 mx)),
         cache_set cache (get_cache_key .forecast city (some dateStr))
           (.forecast (pyRound1 mn) (pyRound1 mx)) CACHE_TIMEOUT_FORECAST,
         ⟨1, 1, 1⟩)) ∧
    (((pts.filter fun p => utcDay p.dt = day).map FPoint.temp) = [] →
      ws_get_forecast store cache (.ok pts) city dateStr day =
        (.error (.externalAPI (pyStr "Не удалось получить данные о погоде: " ++
           forecastUnavailableMsg dateStr)),
         cache, ⟨1, 1, 0⟩)) := by
  constructor
  · intro mn mx hmn hmx
    unfold ws_get_forecast
    rw [hov]
    unfold owm_get_forecast owm_get_forecast_body
    dsimp only
    rw [hmiss]
    dsimp only
    cases hl : (pts.filter fun p => utcDay p.dt = day).map FPoint.temp with
    | nil => rw [hl] at hmn; simp [List.min?] at hmn
    | cons t ts =>
      rw [hl] at hmn hmx
      have hmn' : mn = ts.foldl min t := by
        have h : List.min? (t :: ts) = some (ts.foldl min t) := rfl
        rw [h] at hmn
        exact (Option.some.inj hmn).symm
      have hmx' : mx = ts.foldl max t := by
        have h : List.max? (t :: ts) = some (ts.foldl max t) := rfl
        rw [h] at hmx
        exact (Option.some.inj hmx).symm
      subst hmn' hmx'
      rfl
  · intro hl
    unfold ws_get_forecast
    rw [hov]
    unfold owm_get_forecast owm_get_forecast_body
    dsimp only
    rw [hmiss]
    dsimp only
    rw [hl]
    simp [handle_external_api_error, validate_city_exists, strOf, isCityNotFound, hnf, h404]

theorem C6_forecast_min_max_witness :
    ((([⟨20000 * 86400 + 100, 10⟩, ⟨20000 * 86400 + 200, 12⟩,
          ⟨20001 * 86400, 8⟩] : List FPoint).filter fun p =>
        utcDay p.dt = (20000 : ℤ)).map FPoint.temp).min? = some 10 ∧
    ws_get_forecast ⟨[], 0⟩ []
        (.ok [⟨20000 * 86400 + 100, 10⟩, ⟨20000 * 86400 + 200, 12⟩, ⟨20001 * 86400, 8⟩])
        (pyStr "Moscow") (pyStr "2025-10-13") 20000 =
      (.ok (.forecast (pyRound1 10) (pyRound1 12)),
       cache_set [] (get_cache_key .forecast (pyStr "Moscow") (some (pyStr "2025-10-13")))
         (.forecast (pyRound1 10) (pyRound1 12)) CACHE_TIMEOUT_FORECAST,
       ⟨1, 1, 1⟩) :=
  ⟨by decide,
    (C6_forecast_min_max ⟨[], 0⟩ []
      [⟨20000 * 86400 + 100, 10⟩, ⟨20000 * 86400 + 200, 12⟩, ⟨20001 * 86400, 8⟩]
      (pyStr "Moscow") (pyStr "2025-10-13") 20000
      (by decide) (by decide) (by decide) (by decide)).1 10 12 (by decide) (by decide)⟩

/-- C8: for a key with no override, after one `get_forecast` call that
reaches the provider successfully (one provider call, result cached),
an immediately following call for the same key is a cache hit: it
returns the identical value, leaves the cache unchanged, and performs
no provider request at all — whatever the provider would answer the
second time. -/
theorem C8_cache_read_through (store : OvStore) (cache c1 : Cache)
    (fetch fetch2 : Except PyExc (List FPoint)) (city dateStr : PStr) (day : ℤ)
    (v : WValue) (eff : Effects)
    (hov : store.recs.find? (iexactKey city day) = none)
    (h1 : ws_get_forecast store cache fetch city dateStr day = (.ok v, c1, eff))
    (hp : eff.providerCalls = 1) :
    ws_get_forecast store c1 fetch2 city dateStr day = (.ok v, c1, ⟨0, 1, 0⟩) := by
  unfold ws_get_forecast at h1 ⊢
  rw [hov] at h1 ⊢
  unfold owm_get_forecast owm_get_forecast_body at h1 ⊢
  dsimp only at h1 ⊢
  cases hc : cache_get cache (get_cache_key .forecast city (some dateStr)) with
  | some w =>
    rw [hc] at h1
    dsimp only at h1
    injection h1 with ha rest
    injection rest with hb hcc
    rw [← hcc] at hp
    exact absurd hp (by decide)
  | none =>
    rw [hc] at h1
    dsimp only at h1
    cases fetch with
    | error e =>
      obtain ⟨e2, he2⟩ := decorators_error (α := WValue) e
      rw [he2] at h1
      injection h1 with ha rest
      exact Except.noConfusion ha
    | ok pts =>
      dsimp only at h1
      cases hl : (pts.filter fun p => utcDay p.dt = day).map FPoint.temp with
      | nil =>
        rw [hl] at h1
        dsimp only at h1
        obtain ⟨e2, he2⟩ := decorators_error (α := WValue)
          (.externalAPI (forecastUnavailableMsg dateStr))
        rw [he2] at h1
        injection h1 with ha rest
        exact Except.noConfusion ha
      | cons t ts =>
        rw [hl] at h1
        dsimp only at h1
        injection h1 with ha rest
        injection rest with hb hcc
        injection ha with hv
        rw [← hb, cache_get_set]
        dsimp only
        rw [hv]
        rfl

theorem C8_cache_read_through_witness :
    ws_get_forecast ⟨[], 0⟩ []
        (.ok [⟨20000 * 86400 + 100, 10⟩, ⟨20000 * 86400 + 200, 12⟩, ⟨20001 * 86400, 8⟩])
        (pyStr "Moscow") (pyStr "2025-10-13") 20000 =
      (.ok (.forecast (pyRound1 10) (pyRound1 12)),
       cache_set [] (get_cache_key .forecast (pyStr "Moscow") (some (pyStr "2025-10-13")))
         (.forecast (pyRound1 10) (pyRound1 12)) CACHE_TIMEOUT_FORECAST, ⟨1, 1, 1⟩) ∧
    ws_get_forecast ⟨[], 0⟩
        (cache_set [] (get_cache_key .forecast (pyStr "Moscow") (some (pyStr "2025-10-13")))
          (.forecast (pyRound1 10) (pyRound1 12)) CACHE_TIMEOUT_FORECAST)
        (.error (.pyError (pyStr "provider down on the second call")))
        (pyStr "Moscow") (pyStr "2025-10-13") 20000 =
      (.ok (.forecast (pyRound1 10) (pyRound1 12)),
       cache_set [] (get_cache_key .forecast (pyStr "Moscow") (some (pyStr "2025-10-13")))
         (.forecast (pyRound1 10) (pyRound1 12)) CACHE_TIMEOUT_FORECAST, ⟨0, 1, 0⟩) := by
  have hov : (List.find? (iexactKey (pyStr "Moscow") 20000) ([] : List OverrideRec)) = none := by
    decide
  have h1 :
      ws_get_forecast ⟨[], 0⟩ []
          (.ok [⟨20000 * 86400 + 100, 10⟩, ⟨20000 * 86400 + 200, 12⟩, ⟨20001 * 86400, 8⟩])
          (pyStr "Moscow") (pyStr "2025-10-13") 20000 =
        (.ok (.forecast (pyRound1 10) (pyRound1 12)),
         cache_set [] (get_cache_key .forecast (pyStr "Moscow") (some (pyStr "2025-10-13")))
           (.forecast (pyRound1 10) (pyRound1 12)) CACHE_TIMEOUT_FORECAST, ⟨1, 1, 1⟩) := rfl
  exact ⟨h1,
    C8_cache_read_through ⟨[], 0⟩ []
      (cache_set [] (get_cache_key .forecast (pyStr "Moscow") (some (pyStr "2025-10-13")))
        (.forecast (pyRound1 10) (pyRound1 12)) CACHE_TIMEOUT_FORECAST)
      (.ok [⟨20000 * 86400 + 100, 10⟩, ⟨20000 * 86400 + 200, 12⟩, ⟨20001 * 86400, 8⟩])
      (.error (.pyError (pyStr "provider down on the second call")))
      (pyStr "Moscow") (pyStr "2025-10-13") 20000
      (.forecast (pyRound1 10) (pyRound1 12)) ⟨1, 1, 1⟩
      hov h1 rfl⟩

theorem C9_cache_key_scheme_witness :
    get_cache_key .current (pyStr "London") none =
      pyStr "weather_current_" ++ pyLower (pyStr "London") ∧
    ¬ (pyStr "2025-10-13").isEmpty ∧
    get_cache_key .forecast (pyStr "London") (some (pyStr "2025-10-13")) =
      pyStr "weather_forecast_" ++ pyLower (pyStr "London") ++ pyStr "_" ++ pyStr "2025-10-13" ∧
    get_cache_key .current (pyStr "London") none ≠
      get_cache_key .forecast (pyStr "London") (some (pyStr "2025-10-13")) :=
  ⟨C9_cache_key_scheme.1 _, by decide,
    C9_cache_key_scheme.2.1 _ _ (by decide), C9_cache_key_scheme.2.2 _ _ _ _⟩

/-! ## String lemmas for the upsert claim -/

theorem isSpaceChar_lowerChar (c : PyChar) : isSpaceChar (lowerChar c) = isSpaceChar c := by
  cases c <;> rfl

theorem pyLower_dropWhile (l : PStr) :
    pyLower (l.dropWhile isSpaceChar) = (pyLower l).dropWhile isSpaceChar := by
  unfold pyLower
  rw [List.dropWhile_map]
  have h : isSpaceChar ∘ lowerChar = isSpaceChar := funext isSpaceChar_lowerChar
  rw [h]

theorem pyLower_reverse (l : PStr) : pyLower l.reverse = (pyLower l).reverse :=
  List.map_reverse lowerChar l

theorem pyLower_pyStrip (s : PStr) : pyLower (pyStrip s) = pyStrip (pyLower s) := by
  unfold pyStrip
  rw [pyLower_reverse, pyLower_dropWhile, pyLower_reverse, pyLower_dropWhile]

theorem pyLower_titleGo (s : PStr) : ∀ b, pyLower (titleGo b s) = pyLower s := by
  induction s with
  | nil => intro b; rfl
  | cons c cs ih =>
    intro b
    cases c with
    | letter l up =>
      show PyChar.letter l false :: pyLower (titleGo true cs) =
        PyChar.letter l false :: pyLower cs
      rw [ih true]
    | space =>
      show PyChar.space :: pyLower (titleGo false cs) = PyChar.space :: pyLower cs
      rw [ih false]
    | other n =>
      show PyChar.other n :: pyLower (titleGo false cs) = PyChar.other n :: pyLower cs
      rw [ih false]

theorem pyLower_cityNorm (s : PStr) : pyLower (cityNorm s) = pyStrip (pyLower s) := by
  unfold cityNorm pyTitle
  rw [pyLower_titleGo, pyLower_pyStrip]

theorem dropWhile_dropWhile (p : PyChar → Bool) (l : PStr) :
    (l.dropWhile p).dropWhile p = l.dropWhile p := by
  induction l with
  | nil => rfl
  | cons c cs ih =>
    by_cases h : p c = true
    · rw [List.dropWhile_cons_of_pos h, ih]
    · rw [List.dropWhile_cons_of_neg h, List.dropWhile_cons_of_neg h]

theorem dropWhile_eq_self_of_prefix (p : PyChar → Bool) {A C : PStr}
    (hA : A.dropWhile p = A) (hpre : C <+: A) : C.dropWhile p = C := by
  cases C with
  | nil => rfl
  | cons c cs =>
    obtain ⟨t, ht⟩ := hpre
    have hc : p c = false := by
      by_contra hc
      have hc' : p c = true := by
        cases hp : p c
        · exact absurd hp hc
        · rfl
      rw [← ht, List.cons_append, List.dropWhile_cons_of_pos hc'] at hA
      have hlen : ((cs ++ t).dropWhile p).length = (c :: (cs ++ t)).length :=
        congrArg List.length hA
      have hle : ((cs ++ t).dropWhile p).length ≤ (cs ++ t).length :=
        (List.dropWhile_suffix (l := cs ++ t) p).length_le
      rw [List.length_cons] at hlen
      omega
    exact List.dropWhile_cons_of_neg (by simp [hc])

theorem pyStrip_idem (s : PStr) : pyStrip (pyStrip s) = pyStrip s := by
  have hA : (s.dropWhile isSpaceChar).dropWhile isSpaceChar = s.dropWhile isSpaceChar :=
    dropWhile_dropWhile _ _
  have hB : ((s.dropWhile isSpaceChar).reverse.dropWhile isSpaceChar).dropWhile isSpaceChar
      = (s.dropWhile isSpaceChar).reverse.dropWhile isSpaceChar :=
    dropWhile_dropWhile _ _
  have hS1 : (pyStrip s).dropWhile isSpaceChar = pyStrip s := by
    apply dropWhile_eq_self_of_prefix isSpaceChar hA
    rw [← List.reverse_suffix]
    unfold pyStrip
    rw [List.reverse_reverse]
    exact List.dropWhile_suffix isSpaceChar
  have hS2 : (pyStrip s).reverse.dropWhile isSpaceChar = (pyStrip s).reverse := by
    unfold pyStrip
    rw [List.reverse_reverse]
    exact hB
  show (((pyStrip s).dropWhile isSpaceChar).reverse.dropWhile isSpaceChar).reverse = pyStrip s
  rw [hS1, hS2, List.reverse_reverse]

theorem titleGo_length (s : PStr) : ∀ b, (titleGo b s).length = s.length := by
  induction s with
  | nil => intro b; rfl
  | cons c cs ih =>
    intro b
    cases c <;> simp [titleGo, ih]

theorem pyLower_eq_nil_iff (s : PStr) : pyLower s = [] ↔ s = [] := by
  unfold pyLower
  exact List.map_eq_nil_iff

/-! ## Store lemmas for the upsert claim -/

theorem normCity_pk (r : OverrideRec) : (normCity r).pk = r.pk := by
  unfold normCity
  split <;> rfl

theorem normCity_date (r : OverrideRec) : (normCity r).date = r.date := by
  unfold normCity
  split <;> rfl

theorem normCity_minT (r : OverrideRec) : (normCity r).minT = r.minT := by
  unfold normCity
  split <;> rfl

theorem normCity_maxT (r : OverrideRec) : (normCity r).maxT = r.maxT := by
  unfold normCity
  split <;> rfl

theorem normCity_city (r : OverrideRec) :
    (normCity r).city = if r.city.isEmpty then r.city else cityNorm r.city := by
  unfold normCity
  split <;> simp_all

theorem model_clean_ok {recs : List OverrideRec} {r : OverrideRec}
    (h : model_clean recs r = .ok ()) :
    ¬ r.city.isEmpty →
      ∀ s ∈ recs, (r.pk = none ∨ s.pk ≠ r.pk) →
        ¬ (s.date = r.date ∧ pyLower s.city = pyLower r.city) := by
  intro hcity s hs hpk hkey
  unfold model_clean at h
  split at h
  · exact Except.noConfusion h
  · split at h
    · exact Except.noConfusion h
    · rename_i hcond
      exact hcond ⟨hcity, List.any_eq_true.2 ⟨s, hs, decide_eq_true ⟨hkey.1, hkey.2, hpk⟩⟩⟩

theorem model_save_ok_spec {st st' : OvStore} {r r' : OverrideRec}
    (h : model_save st r = .ok (st', r')) :
    r'.date = r.date ∧ r'.minT = r.minT ∧ r'.maxT = r.maxT ∧
    r'.city = (if r.city.isEmpty then r.city else cityNorm r.city) ∧
    ((r.pk = none ∧ r'.pk = some st.nextPk ∧ st'.recs = st.recs ++ [r'] ∧
        st'.nextPk = st.nextPk + 1) ∨
      (∃ p, r.pk = some p ∧ r'.pk = some p ∧ st'.nextPk = st.nextPk ∧
        st'.recs = st.recs.map fun s => if s.pk = some p then r' else s)) ∧
    (¬ r'.city.isEmpty →
      ∀ s ∈ st.recs, (r.pk = none ∨ s.pk ≠ r.pk) →
        ¬ (s.date = r.date ∧ pyLower s.city = pyLower r'.city)) := by
  unfold model_save at h
  dsimp only at h
  cases hcl : model_clean st.recs (normCity r) with
  | error e => rw [hcl] at h; exact Except.noConfusion h
  | ok u =>
    cases u
    rw [hcl] at h
    dsimp only at h
    cases hpk : (normCity r).pk with
    | some p =>
      rw [hpk] at h
      injection h with h
      injection h with hst hr
      subst hst
      subst hr
      refine ⟨normCity_date r, normCity_minT r, normCity_maxT r, normCity_city r, ?_, ?_⟩
      · exact Or.inr ⟨p, by rw [← normCity_pk]; exact hpk, hpk, rfl, rfl⟩
      · intro hne s hs hdisj hkey
        have hdisj2 : (normCity r).pk = none ∨ s.pk ≠ (normCity r).pk := by
          rw [normCity_pk]
          exact hdisj
        exact model_clean_ok hcl hne s hs hdisj2
          ⟨by rw [normCity_date]; exact hkey.1, hkey.2⟩
    | none =>
      rw [hpk] at h
      injection h with h
      injection h with hst hr
      subst hst
      subst hr
      refine ⟨normCity_date r, normCity_minT r, normCity_maxT r, normCity_city r, ?_, ?_⟩
      · exact Or.inl ⟨by rw [← normCity_pk]; exact hpk, rfl, rfl, rfl⟩
      · intro hne s hs hdisj hkey
        have hdisj2 : (normCity r).pk = none ∨ s.pk ≠ (normCity r).pk := by
          rw [normCity_pk]
          exact hdisj
        exact model_clean_ok hcl hne s hs hdisj2
          ⟨by rw [normCity_date]; exact hkey.1, hkey.2⟩

theorem model_save_mem {st st' : OvStore} {r r' : OverrideRec}
    (h : model_save st r = .ok (st', r'))
    (hpk : r.pk = none ∨ ∃ s ∈ st.recs, s.pk = r.pk) :
    r' ∈ st'.recs := by
  obtain ⟨-, -, -, -, hcase, -⟩ := model_save_ok_spec h
  rcases hcase with ⟨-, -, hrecs, -⟩ | ⟨p, hp, hp', -, hrecs⟩
  · rw [hrecs]
    exact List.mem_append.2 (Or.inr (List.mem_singleton.2 rfl))
  · rcases hpk with hnone | ⟨s, hs, hsp⟩
    · rw [hnone] at hp
      exact Option.noConfusion hp
    · rw [hrecs]
      refine List.mem_map.2 ⟨s, hs, ?_⟩
      rw [hsp, hp, if_pos rfl]

theorem model_save_wf {st st' : OvStore} {r r' : OverrideRec}
    (hwf : wfStore st) (h : model_save st r = .ok (st', r')) :
    wfStore st' := by
  obtain ⟨-, -, -, -, hcase, -⟩ := model_save_ok_spec h
  rcases hcase with ⟨-, hp', hrecs, hnext⟩ | ⟨p, hp, hp', hnext, hrecs⟩
  · constructor
    · intro x hx
      rw [hrecs] at hx
      rcases List.mem_append.1 hx with hx | hx
      · obtain ⟨q, hq, hlt⟩ := hwf.1 x hx
        exact ⟨q, hq, by omega⟩
      · rw [List.mem_singleton.1 hx, hnext]
        exact ⟨st.nextPk, hp', by omega⟩
    · rw [hrecs]
      refine List.pairwise_append.2 ⟨hwf.2, List.pairwise_singleton _ _, ?_⟩
      intro a ha b hb
      rw [List.mem_singleton.1 hb, hp']
      obtain ⟨q, hq, hlt⟩ := hwf.1 a ha
      rw [hq]
      intro hc
      injection hc with hc
      omega
  · have hmap : ∀ y : OverrideRec, ((fun s => if s.pk = some p then r' else s) y).pk = y.pk := by
      intro y
      show (if y.pk = some p then r' else y).pk = y.pk
      by_cases hyp : y.pk = some p
      · rw [if_pos hyp, hp', hyp]
      · rw [if_neg hyp]
    constructor
    · intro x hx
      rw [hrecs] at hx
      obtain ⟨y, hy, hxy⟩ := List.mem_map.1 hx
      obtain ⟨q, hq, hlt⟩ := hwf.1 y hy
      refine ⟨q, ?_, by rw [hnext]; omega⟩
      rw [← hxy, hmap y, hq]
    · rw [hrecs, List.pairwise_map]
      refine hwf.2.imp ?_
      intro a b hab
      rw [hmap a, hmap b]
      exact hab

/-- The canonical (case-folded) key predicate used to state the
upsert claim: a stored row belongs to the (city, date) key when its
lowercased city equals the given case-folded key and its date matches. -/
def keyMatch (key : PStr) (day : ℤ) (r : OverrideRec) : Bool :=
  decide (pyLower r.city = key ∧ r.date = day)

theorem filter_append_singleton (recs : List OverrideRec) (r2 : OverrideRec)
    (f : OverrideRec → Bool) (hf2 : f r2 = true) (hother : ∀ s ∈ recs, f s = false) :
    (recs ++ [r2]).filter f = [r2] := by
  rw [List.filter_append]
  rw [List.filter_eq_nil_iff.2 (by intro a ha; rw [hother a ha]; exact Bool.false_ne_true)]
  rw [List.nil_append, List.filter_cons_of_pos hf2, List.filter_nil]

theorem filter_map_replace (recs : List OverrideRec) (p : Nat) (r2 : OverrideRec)
    (f : OverrideRec → Bool) (hf2 : f r2 = true)
    (hother : ∀ s ∈ recs, s.pk ≠ some p → f s = false)
    (hmem : ∃ s ∈ recs, s.pk = some p)
    (hpair : recs.Pairwise fun a b => a.pk ≠ b.pk) :
    (recs.map fun s => if s.pk = some p then r2 else s).filter f = [r2] := by
  induction recs with
  | nil => simp at hmem
  | cons c cs ih =>
    by_cases hcp : c.pk = some p
    · rw [List.map_cons]
      rw [show (if c.pk = some p then r2 else c) = r2 from if_pos hcp]
      rw [List.filter_cons_of_pos hf2]
      have htail : (cs.map fun s => if s.pk = some p then r2 else s).filter f = [] := by
        rw [List.filter_eq_nil_iff]
        intro y hy
        obtain ⟨z, hz, hzy⟩ := List.mem_map.1 hy
        have hzp : z.pk ≠ some p := by
          intro hzp
          have hcz := List.rel_of_pairwise_cons hpair hz
          rw [hcp, hzp] at hcz
          exact hcz rfl
        rw [show (if z.pk = some p then r2 else z) = z from if_neg hzp] at hzy
        subst hzy
        rw [hother z (List.mem_cons_of_mem _ hz) hzp]
        exact Bool.false_ne_true
      rw [htail]
    · rw [List.map_cons]
      rw [show (if c.pk = some p then r2 else c) = c from if_neg hcp]
      have hcf : f c = false := hother c (List.mem_cons_self _ _) hcp
      rw [List.filter_cons_of_neg (by rw [hcf]; exact Bool.false_ne_true)]
      rcases hmem with ⟨s, hs, hsp⟩
      rcases List.mem_cons.1 hs with hsc | hs'
      · rw [hsc] at hsp
        exact absurd hsp hcp
      · exact ih (fun s hs1 hsp1 => hother s (List.mem_cons_of_mem _ hs1) hsp1)
          ⟨s, hs', hsp⟩ (List.Pairwise.of_cons hpair)

theorem create_ok_parts {st st' : OvStore} {city : PStr} {d : ℤ} {mn mx : ℚ}
    {v : ℚ × ℚ}
    (h : create_custom_forecast st city d mn mx = (.ok v, st')) :
    ∃ r0 stA r1 r2,
      r0.date = d ∧ r0.minT = mn ∧ r0.maxT = mx ∧
      r0.city = (if city.isEmpty then city else cityNorm city) ∧
      (r0.pk = none ∨ ∃ s ∈ st.recs, s.pk = r0.pk) ∧
      model_save st r0 = .ok (stA, r1) ∧
      model_save stA r1 = .ok (st', r2) ∧
      v = (r2.minT, r2.maxT) := by
  unfold create_custom_forecast at h
  dsimp only at h
  cases hf : st.recs.find? (exactKey (if city.isEmpty then city else cityNorm city) d) with
  | some s =>
    rw [hf] at h
    dsimp only at h
    have hkey := List.find?_some hf
    have hkey2 := of_decide_eq_true hkey
    cases hs1 : model_save st { s with minT := mn, maxT := mx } with
    | error e =>
      rw [hs1] at h
      injection h with h1 h2
      exact Except.noConfusion h1
    | ok pr =>
      obtain ⟨stA, r1⟩ := pr
      rw [hs1] at h
      dsimp only at h
      cases hfc : model_full_clean stA.recs r1 with
      | error e =>
        rw [hfc] at h
        injection h with h1 h2
        exact Except.noConfusion h1
      | ok u =>
        cases u
        rw [hfc] at h
        dsimp only at h
        cases hs2 : model_save stA r1 with
        | error e =>
          rw [hs2] at h
          injection h with h1 h2
          exact Except.noConfusion h1
        | ok pr2 =>
          obtain ⟨st2, r2⟩ := pr2
          rw [hs2] at h
          dsimp only at h
          injection h with h1 h2
          injection h1 with hv
          subst h2
          exact ⟨{ s with minT := mn, maxT := mx }, stA, r1, r2,
            hkey2.2, rfl, rfl, hkey2.1,
            Or.inr ⟨s, List.mem_of_find?_eq_some hf, rfl⟩, hs1, hs2, hv.symm⟩
  | none =>
    rw [hf] at h
    dsimp only at h
    cases hs1 : model_save st
        ⟨none, if city.isEmpty then city else cityNorm city, d, mn, mx⟩ with
    | error e =>
      rw [hs1] at h
      injection h with h1 h2
      exact Except.noConfusion h1
    | ok pr =>
      obtain ⟨stA, r1⟩ := pr
      rw [hs1] at h
      dsimp only at h
      cases hfc : model_full_clean stA.recs r1 with
      | error e =>
        rw [hfc] at h
        injection h with h1 h2
        exact Except.noConfusion h1
      | ok u =>
        cases u
        rw [hfc] at h
        dsimp only at h
        cases hs2 : model_save stA r1 with
        | error e =>
          rw [hs2] at h
          injection h with h1 h2
          exact Except.noConfusion h1
        | ok pr2 =>
          obtain ⟨st2, r2⟩ := pr2
          rw [hs2] at h
          dsimp only at h
          injection h with h1 h2
          injection h1 with hv
          subst h2
          exact ⟨⟨none, if city.isEmpty then city else cityNorm city, d, mn, mx⟩,
            stA, r1, r2, rfl, rfl, rfl, rfl, Or.inl rfl, hs1, hs2, hv.symm⟩

theorem create_ok_wf {st st' : OvStore} {city : PStr} {d : ℤ} {mn mx : ℚ} {v : ℚ × ℚ}
    (hwf : wfStore st)
    (h : create_custom_forecast st city d mn mx = (.ok v, st')) :
    wfStore st' := by
  obtain ⟨r0, stA, r1, r2, -, -, -, -, -, hs1, hs2, -⟩ := create_ok_parts h
  exact model_save_wf (model_save_wf hwf hs1) hs2

/-- C5: calling the upsert (`create_custom_forecast`) twice for the
same (city, date) key — the two city spellings equal up to case — and
with different temperature values leaves exactly one stored record for
that key, and it holds the second call's values (last writer wins,
never a duplicate row).  `keyMatch` compares the stored city
case-insensitively against the case-folded key.  The store is
well-formed (distinct pks) and the key is non-degenerate (the city is
not all whitespace — guaranteed by `validate_city_name` for every city
the HTTP layer accepts). -/
theorem C5_upsert_last_writer_wins (st0 st1 st2 : OvStore) (c1 c2 : PStr) (d : ℤ)
    (m1 x1 m2 x2 : ℚ) (v1 v2 : ℚ × ℚ)
    (hwf : wfStore st0)
    (hlc : pyLower c1 = pyLower c2)
    (hne : pyStrip (pyLower c1) ≠ [])
    (h1 : create_custom_forecast st0 c1 d m1 x1 = (.ok v1, st1))
    (h2 : create_custom_forecast st1 c2 d m2 x2 = (.ok v2, st2)) :
    ∃ rec, st2.recs.filter (keyMatch (pyStrip (pyLower c1)) d) = [rec] ∧
      rec.minT = m2 ∧ rec.maxT = x2 ∧ v2 = (m2, x2) := by
  have hwf1 : wfStore st1 := create_ok_wf hwf h1
  obtain ⟨r0, stA, r1, r2, hd0, hm0, hx0, hcity0, hpk0, hs1, hs2, hv⟩ := create_ok_parts h2
  have hc2ne : c2.isEmpty = false := by
    cases hc : c2 with
    | nil =>
      exfalso
      apply hne
      rw [hlc, hc]
      rfl
    | cons a l => rfl
  have hcity0' : r0.city = cityNorm c2 := by
    rw [hcity0, hc2ne]
    rfl
  have hK2 : pyStrip (pyLower c2) = pyStrip (pyLower c1) := by rw [hlc]
  have hKst : pyStrip (pyStrip (pyLower c1)) = pyStrip (pyLower c1) := pyStrip_idem _
  have hKnorm : pyLower (cityNorm c2) = pyStrip (pyLower c1) := by
    rw [pyLower_cityNorm, hK2]
  have hnorm_ne : (cityNorm c2).isEmpty = false := by
    cases hcc : cityNorm c2 with
    | nil =>
      exfalso
      apply hne
      rw [← hKnorm, hcc]
      rfl
    | cons a l => rfl
  obtain ⟨hd1, hm1, hx1, hcity1, hcase1, hguard1⟩ := model_save_ok_spec hs1
  have hcity1' : r1.city = cityNorm (cityNorm c2) := by
    rw [hcity1, hcity0', hnorm_ne]
    rfl
  have hKr1 : pyLower r1.city = pyStrip (pyLower c1) := by
    rw [hcity1', pyLower_cityNorm, hKnorm, hKst]
  have hr1ne : r1.city.isEmpty = false := by
    cases hcc : r1.city with
    | nil =>
      exfalso
      apply hne
      rw [← hKr1, hcc]
      rfl
    | cons a l => rfl
  obtain ⟨p1, hp1⟩ : ∃ p1, r1.pk = some p1 := by
    rcases hcase1 with ⟨-, hp, -, -⟩ | ⟨p, -, hp, -, -⟩
    · exact ⟨st1.nextPk, hp⟩
    · exact ⟨p, hp⟩
  have hr1mem : r1 ∈ stA.recs := model_save_mem hs1 hpk0
  have hwfA : wfStore stA := model_save_wf hwf1 hs1
  obtain ⟨hd2, hm2, hx2, hcity2, hcase2, hguard2⟩ := model_save_ok_spec hs2
  have hcity2' : r2.city = cityNorm r1.city := by
    rw [hcity2, hr1ne]
    rfl
  have hKr2 : pyLower r2.city = pyStrip (pyLower c1) := by
    rw [hcity2', pyLower_cityNorm, hKr1, hKst]
  have hr2ne : ¬ r2.city.isEmpty := by
    intro hemp
    apply hne
    rw [← hKr2]
    cases hcc : r2.city with
    | nil => rfl
    | cons a l =>
      rw [hcc] at hemp
      exact Bool.noConfusion hemp
  rcases hcase2 with ⟨hnone, -, -, -⟩ | ⟨p, hpe, hp2, hnext2, hrecs2⟩
  · rw [hp1] at hnone
    exact Option.noConfusion hnone
  · have hpp : p = p1 := by
      rw [hp1] at hpe
      injection hpe with hpe'
      exact hpe'.symm
    rw [← hpp] at hp1
    have hf2 : keyMatch (pyStrip (pyLower c1)) d r2 = true :=
      decide_eq_true ⟨hKr2, by rw [hd2, hd1, hd0]⟩
    have hother : ∀ s ∈ stA.recs, s.pk ≠ some p →
        keyMatch (pyStrip (pyLower c1)) d s = false := by
      intro s hs hsp
      apply decide_eq_false
      rintro ⟨hkl, hkd⟩
      exact hguard2 hr2ne s hs (Or.inr (by rw [hp1]; exact hsp))
        ⟨by rw [hd1, hd0]; exact hkd, by rw [hkl, hKr2]⟩
    refine ⟨r2, ?_, by rw [hm2, hm1, hm0], by rw [hx2, hx1, hx0],
      by rw [hv, hm2, hm1, hm0, hx2, hx1, hx0]⟩
    rw [hrecs2]
    exact filter_map_replace stA.recs p r2 _ hf2 hother ⟨r1, hr1mem, hp1⟩ hwfA.2

theorem C5_upsert_last_writer_wins_witness :
    ∃ rec, (⟨[⟨some 0, pyStr "Moscow", 20000, 3, 4⟩], 1⟩ : OvStore).recs.filter
        (keyMatch (pyStrip (pyLower (pyStr "MOSCOW"))) 20000) = [rec] ∧
      rec.minT = 3 ∧ rec.maxT = 4 ∧ ((3 : ℚ), (4 : ℚ)) = (3, 4) := by
  have hwf : wfStore ⟨[], 0⟩ :=
    ⟨fun r hr => absurd hr (List.not_mem_nil r), List.Pairwise.nil⟩
  exact C5_upsert_last_writer_wins ⟨[], 0⟩ ⟨[⟨some 0, pyStr "Moscow", 20000, 1, 2⟩], 1⟩
    ⟨[⟨some 0, pyStr "Moscow", 20000, 3, 4⟩], 1⟩ (pyStr "MOSCOW") (pyStr "moscow") 20000
    1 2 3 4 (1, 2) (3, 4) hwf (by decide) (by decide) (by decide) (by decide)
